import Mathlib

/-!
Shallow embedding of the collaborative-whiteboard relay server
(`src/server/server.js`) and proofs about its core behaviour.

The server keeps an in-memory `boards` map (`Map<boardId, snapshot>`),
relays `snapshot` / `request_snapshot` WebSocket messages, publishes
accepted snapshots on a Redis topic tagged with the process's `NODE_ID`,
filters its own messages out of the subscription, and appends accepted
snapshots to a Postgres event log.

Values flowing through the relay are parsed JSON.  We model JSON values
with the mutual inductive `JVal` (arrays and objects as bespoke list
types so that decidable equality can be derived), JavaScript's
`undefined` as `none : Option JVal`, and JavaScript truthiness
explicitly.  JSON numbers are modelled as integers; no behaviour of the
relay depends on fractional values.  `Map` keys are compared
structurally here; the relay only ever uses primitive (string) keys, for
which JavaScript's SameValueZero key equality coincides with structural
equality.

The handlers are modelled as pure functions from a store and a parsed
message (`Option Msg`, `none` standing for a `JSON.parse` failure caught
by the surrounding `try`/`catch`) to the new store plus a list of
`Effect`s recording, in program order, the side effects the handler
performs: sends to a single socket, fan-out broadcasts, the begin/end of
the awaited Redis publish, and the begin/end of the awaited Postgres
insert.
-/

namespace Whiteboard

mutual
/-- A parsed JSON value (JavaScript object graph produced by `JSON.parse`). -/
inductive JVal where
  | null
  | bool (b : Bool)
  | num (n : Int)
  | str (s : String)
  | arr (xs : JArr)
  | obj (fs : JObj)
deriving DecidableEq

/-- A JSON array. -/
inductive JArr where
  | nil
  | cons (hd : JVal) (tl : JArr)
deriving DecidableEq

/-- A JSON object: an ordered list of string-keyed fields. -/
inductive JObj where
  | nil
  | cons (key : String) (val : JVal) (tl : JObj)
deriving DecidableEq
end

/-- JavaScript truthiness of a defined JSON value: `null`, `false`, `0`
and `""` are falsy; arrays and objects are always truthy. -/
def JVal.truthy : JVal → Bool
  | .null => false
  | .bool b => b
  | .num n => n != 0
  | .str s => s != ""
  | .arr _ => true
  | .obj _ => true

/-- A JavaScript value position that may also hold `undefined` (`none`). -/
abbrev JSVal := Option JVal

/-- JavaScript truthiness including `undefined`, which is falsy. -/
def jsTruthy : JSVal → Bool
  | none => false
  | some v => v.truthy

/-- A parsed relay message: the fields of the JSON object that
`server.js` reads (`type`, `boardId`, `snapshot`, `nodeId`).  A missing
field is `none` (reads as `undefined` in JavaScript). -/
structure Msg where
  type : JSVal
  boardId : JSVal
  snapshot : JSVal
  nodeId : JSVal
deriving DecidableEq

/-- The in-memory session store `boards` (`const boards = new Map()`,
line 35): an association list from board key to the stored value.  The
stored value is a `JSVal` because `boards.set(boardId, msg.snapshot)`
can store `undefined` when the field is absent. -/
abbrev Store := List (JVal × JSVal)

/-- `boards.set(k, v)`: replace the value at an existing key, else
append a new entry (insertion-order semantics of a JavaScript `Map`). -/
def mapSet : Store → JVal → JSVal → Store
  | [], k, v => [(k, v)]
  | p :: rest, k, v =>
    if p.1 = k then (k, v) :: rest else p :: mapSet rest k v

/-- `boards.get(k)`: the stored value, or `undefined` (`none`) when the
key is absent. -/
def mapGet : Store → JVal → JSVal
  | [], _ => none
  | p :: rest, k => if p.1 = k then p.2 else mapGet rest k

/-- `msg.boardId || 'default'` (lines 111, 134, 150): a falsy board id
is replaced by the string key `"default"`. -/
def jsOrDefault (b : JSVal) : JVal :=
  match b with
  | some v => if v.truthy then v else JVal.str "default"
  | none => JVal.str "default"

/-- One WebSocket client connection as the broadcaster sees it: its
identity and its transport `readyState` (1 = OPEN). -/
structure Conn where
  id : Nat
  readyState : Nat
deriving DecidableEq

/-- Whether `broadcast` attempts to send to `c`: the loop guard
`client !== except && client.readyState === 1` (line 88).  An omitted
`except` argument is `none` (in JavaScript, `client !== undefined` holds
for every client). -/
def eligibleConn (exc : Option Nat) (c : Conn) : Bool :=
  (match exc with
   | some e => c.id != e
   | none => true) && c.readyState == 1

/-- The `broadcast` loop (lines 86-92), with the outcome of each
`client.send` given by `sendOk`.  The loop body has no `try`/`catch`,
so a send that raises propagates out of the `for` loop: the result is
the list of connection ids actually sent to, in iteration order, and a
flag recording whether an error escaped (aborting the iteration). -/
def broadcastRun (sendOk : Nat → Bool) (exc : Option Nat) :
    List Conn → List Nat × Bool
  | [] => ([], false)
  | c :: rest =>
    if eligibleConn exc c then
      if sendOk c.id then
        let r := broadcastRun sendOk exc rest
        (c.id :: r.1, r.2)
      else
        ([], true)
    else
      broadcastRun sendOk exc rest

/-- A side effect performed by a handler, in program order.  `sendTo`
is a direct `ws.send` to one socket; `broadcastMsg` is a call of the
fan-out `broadcast` with its payload and optional excluded connection;
`publishStart`/`publishEnd` bracket the awaited
`redisPub.publish('whiteboard-events', …)`; `appendStart`/`appendEnd`
bracket the awaited `pool.query('INSERT INTO events …', [boardId,
snapshot])`.  The `ok` flags record whether the awaited call succeeded;
a failure is caught and only logged. -/
inductive Effect where
  | sendTo (conn : Nat) (payload : Msg)
  | broadcastMsg (payload : Msg) (exc : Option Nat)
  | publishStart (payload : Msg)
  | publishEnd (ok : Bool)
  | appendStart (key : JVal) (snapshot : JSVal)
  | appendEnd (ok : Bool)
deriving DecidableEq

/-- The Redis subscription handler (lines 95-117).  `nid` is this
process's `NODE_ID`; `pm` is the result of `JSON.parse` on the
delivered payload (`none` when parsing threw and the catch returned).
Self-published messages are dropped by
`if (msg.nodeId && msg.nodeId === NODE_ID) return` — a truthiness check
followed by strict equality against the `NODE_ID` string.  Otherwise a
`snapshot` message updates `boards` and the original message is
re-broadcast with no excluded connection. -/
def busHandle (nid : String) (store : Store) (pm : Option Msg) :
    Store × List Effect :=
  match pm with
  | none => (store, [])
  | some msg =>
    if jsTruthy msg.nodeId ∧ msg.nodeId = some (JVal.str nid) then
      (store, [])
    else
      let store' :=
        if msg.type = some (JVal.str "snapshot") then
          mapSet store (jsOrDefault msg.boardId) msg.snapshot
        else store
      (store', [Effect.broadcastMsg msg none])

/-- The per-connection WebSocket message handler (lines 122-185).
`conn` is the receiving socket's identity; `pm` is the result of
`JSON.parse` on the raw frame (`none` when parsing threw); `pubOk` and
`logOk` are the outcomes of the awaited Redis publish and Postgres
insert for this invocation.  A `request_snapshot` message answers the
requester alone, and only when the stored value is truthy
(`if (snapshot)`).  A `snapshot` message stores the payload, tags the
message with `NODE_ID`, broadcasts it excluding the sender, publishes
it, and appends it to the event log; publish and insert failures are
each caught and logged.  Any other message is only logged. -/
def wsHandle (nid : String) (conn : Nat) (pubOk logOk : Bool)
    (store : Store) (pm : Option Msg) : Store × List Effect :=
  match pm with
  | none => (store, [])
  | some msg =>
    if msg.type = some (JVal.str "request_snapshot") then
      let bid := jsOrDefault msg.boardId
      let snap := mapGet store bid
      if jsTruthy snap then
        (store, [Effect.sendTo conn
          { type := some (JVal.str "snapshot"), boardId := some bid,
            snapshot := snap, nodeId := none }])
      else
        (store, [])
    else if msg.type = some (JVal.str "snapshot") then
      let bid := jsOrDefault msg.boardId
      let store' := mapSet store bid msg.snapshot
      let ext : Msg := { msg with nodeId := some (JVal.str nid) }
      (store', [Effect.broadcastMsg ext (some conn),
                Effect.publishStart ext, Effect.publishEnd pubOk,
                Effect.appendStart bid msg.snapshot, Effect.appendEnd logOk])
    else
      (store, [])

/-- The debug REST write `app.post('/board/:id', …)` (lines 66-71):
stores the parsed request body under the string key from the URL. -/
def postBoard (store : Store) (id : String) (body : JVal) : Store :=
  mapSet store (JVal.str id) (some body)

/-- Sequential processing of a list of inbound frames on one
connection: each item carries the parse outcome and this invocation's
publish/insert outcomes.  Effects accumulate in order. -/
def wsRun (nid : String) (conn : Nat) (store : Store) :
    List (Option Msg × Bool × Bool) → Store × List Effect
  | [] => (store, [])
  | (pm, p, l) :: rest =>
    let r := wsHandle nid conn p l store pm
    let r' := wsRun nid conn r.1 rest
    (r'.1, r.2 ++ r'.2)

/-- Sequential processing of a list of delivered bus payloads by the
subscription handler. -/
def busRun (nid : String) (store : Store) :
    List (Option Msg) → Store × List Effect
  | [] => (store, [])
  | pm :: rest =>
    let r := busHandle nid store pm
    let r' := busRun nid r.1 rest
    (r'.1, r.2 ++ r'.2)

/-- One store-affecting entry point of the server: a frame arriving on
a client connection, a payload delivered by the bus subscription, or a
debug REST write. -/
inductive PutOp where
  | client (conn : Nat) (pubOk logOk : Bool) (pm : Option Msg)
  | bus (pm : Option Msg)
  | post (id : String) (body : JVal)
deriving DecidableEq

/-- The effect of one entry point on the session store (effects other
than the store are projected away). -/
def applyOp (nid : String) (s : Store) : PutOp → Store
  | .client conn p l pm => (wsHandle nid conn p l s pm).1
  | .bus pm => (busHandle nid s pm).1
  | .post id body => postBoard s id body

/-- The key/value pair an entry point writes to the store, if any;
a summary of the three handlers' store updates, proved to agree with
them in `applyOp_opWrite`. -/
def opWrite (nid : String) : PutOp → Option (JVal × JSVal)
  | .client _ _ _ pm =>
    match pm with
    | none => none
    | some m =>
      if m.type = some (JVal.str "snapshot") then
        some (jsOrDefault m.boardId, m.snapshot)
      else none
  | .bus pm =>
    match pm with
    | none => none
    | some m =>
      if jsTruthy m.nodeId ∧ m.nodeId = some (JVal.str nid) then none
      else if m.type = some (JVal.str "snapshot") then
        some (jsOrDefault m.boardId, m.snapshot)
      else none
  | .post id body => some (JVal.str id, some body)

/-- The value written to key `k` by the most recent operation of `ops`
(program order, later elements of the list happen later) that writes to
`k`, if any. -/
def lastWrite (nid : String) (k : JVal) : List PutOp → Option JSVal
  | [] => none
  | op :: rest =>
    match lastWrite nid k rest with
    | some v => some v
    | none =>
      match opWrite nid op with
      | some kv => if kv.1 = k then some kv.2 else none
      | none => none

/-- The reply the `request_snapshot` branch sends to the requester
(lines 137-143): a `snapshot`-typed envelope carrying the stored value,
with no `nodeId` field. -/
def replyEnvelope (store : Store) (bid : JVal) : Msg :=
  { type := some (JVal.str "snapshot"), boardId := some bid,
    snapshot := mapGet store bid, nodeId := none }

/-- Recognizer for broadcast effects. -/
def Effect.isBroadcast : Effect → Bool
  | .broadcastMsg _ _ => true
  | _ => false

/-- Recognizer for the start of the awaited Redis publish. -/
def Effect.isPublishStart : Effect → Bool
  | .publishStart _ => true
  | _ => false

/-- Recognizer for the settling of the awaited Redis publish. -/
def Effect.isPublishEnd : Effect → Bool
  | .publishEnd _ => true
  | _ => false

/-- Recognizer for the start of the awaited Postgres insert. -/
def Effect.isAppendStart : Effect → Bool
  | .appendStart _ _ => true
  | _ => false

/-! Concrete values used by witnesses and counterexamples. -/

/-- A client `snapshot` message for board `"b"` with payload `{v: 1}`
and no origin tag. -/
def snapMsgPlain : Msg :=
  { type := some (JVal.str "snapshot"), boardId := some (JVal.str "b"),
    snapshot := some (JVal.obj (.cons "v" (JVal.num 1) .nil)),
    nodeId := none }

/-- The same message tagged with origin `"A"`. -/
def snapMsgFromA : Msg := { snapMsgPlain with nodeId := some (JVal.str "A") }

/-- The same message tagged with origin `"B"`. -/
def snapMsgFromB : Msg := { snapMsgPlain with nodeId := some (JVal.str "B") }

/-- A client `snapshot` message whose `boardId` is JSON `null` (falsy)
and whose payload is `{v: 2}`. -/
def snapMsgNullBid : Msg :=
  { type := some (JVal.str "snapshot"), boardId := some JVal.null,
    snapshot := some (JVal.obj (.cons "v" (JVal.num 2) .nil)),
    nodeId := none }

/-- A `request_snapshot` message with no `boardId` field. -/
def reqMsgNoBid : Msg :=
  { type := some (JVal.str "request_snapshot"), boardId := none,
    snapshot := none, nodeId := none }

/-- A store holding JSON `null` as the snapshot of board `"default"`. -/
def storeNullDefault : Store := [(JVal.str "default", some JVal.null)]

/-- A store holding the number `7` as the snapshot of board
`"default"`. -/
def storeSevenDefault : Store := [(JVal.str "default", some (JVal.num 7))]

/-- A send outcome in which the send to connection `0` raises and all
other sends succeed. -/
def sendOkExceptZero : Nat → Bool := fun i => i != 0

/-- Two open connections. -/
def connZero : Conn := ⟨0, 1⟩

/-- Second open connection. -/
def connOne : Conn := ⟨1, 1⟩

/-! Helper lemmas about the store and the broadcast loop. -/

/-- Reading back the key just written returns the written value. -/
theorem mapGet_set_self (m : Store) (k : JVal) (v : JSVal) :
    mapGet (mapSet m k v) k = v := by
  induction m with
  | nil => simp [mapSet, mapGet]
  | cons p rest ih =>
    by_cases h : p.1 = k
    · simp [mapSet, mapGet, h]
    · simp [mapSet, mapGet, h, ih]

/-- Writing one key leaves every other key's value unchanged. -/
theorem mapGet_set_other (m : Store) (k k' : JVal) (v : JSVal)
    (h : k' ≠ k) : mapGet (mapSet m k v) k' = mapGet m k' := by
  have hk : k ≠ k' := Ne.symm h
  induction m with
  | nil => simp [mapSet, mapGet, hk]
  | cons p rest ih =>
    by_cases hp : p.1 = k
    · simp [mapSet, mapGet, hp, hk]
    · simp [mapSet, mapGet, hp, ih]

/-- Characterization of the `broadcast` loop: it sends to the eligible
connections in iteration order up to (and excluding) the first one
whose `send` raises; the error flag is set exactly when some eligible
connection's send raises. -/
theorem broadcastRun_delivery (sendOk : Nat → Bool) (exc : Option Nat)
    (cs : List Conn) :
    broadcastRun sendOk exc cs =
      (((cs.filter (eligibleConn exc)).map Conn.id).takeWhile sendOk,
       !((cs.filter (eligibleConn exc)).map Conn.id).all sendOk) := by
  induction cs with
  | nil => rfl
  | cons c rest ih =>
    by_cases he : eligibleConn exc c
    · by_cases hs : sendOk c.id
      · simp [broadcastRun, he, hs, ih, List.filter_cons,
          List.takeWhile_cons]
      · simp [broadcastRun, he, hs, List.filter_cons,
          List.takeWhile_cons]
    · simp [broadcastRun, he, ih, List.filter_cons]

/-- The three entry points change the store exactly as `opWrite`
summarizes: an unconditional overwrite of one key, or no change. -/
theorem applyOp_opWrite (nid : String) (s : Store) (op : PutOp) :
    applyOp nid s op =
      (match opWrite nid op with
       | some kv => mapSet s kv.1 kv.2
       | none => s) := by
  cases op with
  | client conn p l pm =>
    cases pm with
    | none => rfl
    | some m =>
      by_cases h1 : m.type = some (JVal.str "request_snapshot")
      · have h2 : ¬ m.type = some (JVal.str "snapshot") := by
          rw [h1]; decide
        simp only [applyOp, wsHandle, opWrite, h1, h2, if_true, if_false]
        split <;> rfl
      · by_cases h2 : m.type = some (JVal.str "snapshot")
        · simp [applyOp, wsHandle, opWrite, h1, h2]
        · simp [applyOp, wsHandle, opWrite, h1, h2]
  | bus pm =>
    cases pm with
    | none => rfl
    | some m =>
      by_cases h0 : jsTruthy m.nodeId ∧ m.nodeId = some (JVal.str nid)
      · obtain ⟨ht, he⟩ := h0
        rw [he] at ht
        simp [applyOp, busHandle, opWrite, he, ht]
      · by_cases h2 : m.type = some (JVal.str "snapshot")
        · simp [applyOp, busHandle, opWrite, h0, h2]
        · simp [applyOp, busHandle, opWrite, h0, h2]
  | post id body => rfl

/-- A run of entry points none of which writes key `k` leaves the value
at `k` unchanged. -/
theorem mapGet_foldl_of_no_write (nid : String) (k : JVal) :
    ∀ (ops : List PutOp) (s : Store), lastWrite nid k ops = none →
      mapGet (ops.foldl (applyOp nid) s) k = mapGet s k := by
  intro ops
  induction ops with
  | nil => intro s _; rfl
  | cons op rest ih =>
    intro s h
    simp only [lastWrite] at h
    have hrest : lastWrite nid k rest = none := by
      cases hlw : lastWrite nid k rest with
      | none => rfl
      | some v => rw [hlw] at h; cases h
    rw [hrest] at h
    rw [List.foldl_cons]
    cases hw : opWrite nid op with
    | none =>
      rw [applyOp_opWrite, hw]
      exact ih s hrest
    | some kv =>
      rw [hw] at h
      have hop : (if kv.1 = k then some kv.2 else none) =
          (none : Option JSVal) := h
      by_cases hk : kv.1 = k
      · rw [if_pos hk] at hop; cases hop
      · rw [applyOp_opWrite, hw]
        rw [ih (mapSet s kv.1 kv.2) hrest]
        exact mapGet_set_other s kv.1 k kv.2 (Ne.symm hk)

/-- Taking while a constantly-true test takes everything. -/
theorem takeWhile_const_true {α : Type} (l : List α) :
    l.takeWhile (fun _ => true) = l := by
  induction l with
  | nil => rfl
  | cons a l ih => simp [List.takeWhile_cons, ih]

/-! The claims. -/

/-- Claim C1: a bus message whose `nodeId` equals this instance's
(nonempty) `NODE_ID` is discarded by the subscription handler — the
session store is unchanged and no effect, in particular no broadcast to
any local connection, is performed. -/
theorem c1_self_echo_suppressed (nid : String) (store : Store) (m : Msg)
    (hnid : nid ≠ "") (horigin : m.nodeId = some (JVal.str nid)) :
    busHandle nid store (some m) = (store, []) := by
  have ht : jsTruthy (some (JVal.str nid)) = true := by
    simp [jsTruthy, JVal.truthy, hnid]
  simp [busHandle, horigin, ht]

/-- Closed witness for C1. -/
theorem c1_self_echo_suppressed_witness :
    busHandle "A" [] (some snapMsgFromA) = ([], []) :=
  c1_self_echo_suppressed "A" [] snapMsgFromA (by decide) (by decide)

/-- Claim C3: a bus-received `snapshot` message whose origin tag
differs from this instance's identity updates the store at the
message's (defaulted) key with the message's snapshot and is handed to
the broadcaster with no excluded connection; the broadcaster then
delivers to every open local connection. -/
theorem c3_foreign_snapshot_applied (nid : String) (store : Store)
    (m : Msg) (conns : List Conn)
    (horigin : m.nodeId ≠ some (JVal.str nid))
    (htype : m.type = some (JVal.str "snapshot")) :
    busHandle nid store (some m) =
      (mapSet store (jsOrDefault m.boardId) m.snapshot,
       [Effect.broadcastMsg m none]) ∧
    (broadcastRun (fun _ => true) none conns).1 =
      (conns.filter (fun c => c.readyState == 1)).map Conn.id := by
  constructor
  · have hcond : ¬ (jsTruthy m.nodeId = true ∧
        m.nodeId = some (JVal.str nid)) := fun hc => horigin hc.2
    simp [busHandle, hcond, htype]
  · rw [broadcastRun_delivery]
    have helig : eligibleConn none = fun c : Conn => c.readyState == 1 := by
      funext c; simp [eligibleConn]
    simp [helig, takeWhile_const_true]

/-- Closed witness for C3. -/
theorem c3_foreign_snapshot_applied_witness :
    busHandle "A" [] (some snapMsgFromB) =
      (mapSet [] (jsOrDefault snapMsgFromB.boardId) snapMsgFromB.snapshot,
       [Effect.broadcastMsg snapMsgFromB none]) ∧
    (broadcastRun (fun _ => true) none [connZero, connOne]).1 =
      ([connZero, connOne].filter (fun c => c.readyState == 1)).map
        Conn.id :=
  c3_foreign_snapshot_applied "A" [] snapMsgFromB [connZero, connOne]
    (by decide) (by decide)

/-- Claim C4: a client `snapshot` message is processed as: store
update, envelope construction tagged with this instance's identity,
broadcast excluding the sender, bus publish, durable-log append — in
that order; publish or append failures (the `ok` flags) change nothing
else about the run, the store update stands regardless, and no message
at all — in particular no error — is sent to the originating
connection. -/
theorem c4_snapshot_update_sequence (nid : String) (conn : Nat)
    (pubOk logOk : Bool) (store : Store) (m : Msg)
    (htype : m.type = some (JVal.str "snapshot")) :
    wsHandle nid conn pubOk logOk store (some m) =
      (mapSet store (jsOrDefault m.boardId) m.snapshot,
       [Effect.broadcastMsg { m with nodeId := some (JVal.str nid) }
          (some conn),
        Effect.publishStart { m with nodeId := some (JVal.str nid) },
        Effect.publishEnd pubOk,
        Effect.appendStart (jsOrDefault m.boardId) m.snapshot,
        Effect.appendEnd logOk]) ∧
    (∀ pl : Msg, Effect.sendTo conn pl ∉
      (wsHandle nid conn pubOk logOk store (some m)).2) := by
  have hreq : ¬ m.type = some (JVal.str "request_snapshot") := by
    rw [htype]; decide
  constructor
  · simp [wsHandle, hreq, htype]
  · intro pl
    simp [wsHandle, hreq, htype]

/-- Closed witness for C4. -/
theorem c4_snapshot_update_sequence_witness :
    wsHandle "A" 7 true false [] (some snapMsgPlain) =
      (mapSet [] (jsOrDefault snapMsgPlain.boardId) snapMsgPlain.snapshot,
       [Effect.broadcastMsg snapMsgFromA (some 7),
        Effect.publishStart snapMsgFromA,
        Effect.publishEnd true,
        Effect.appendStart (jsOrDefault snapMsgPlain.boardId)
          snapMsgPlain.snapshot,
        Effect.appendEnd false]) ∧
    (∀ pl : Msg, Effect.sendTo 7 pl ∉
      (wsHandle "A" 7 true false [] (some snapMsgPlain)).2) :=
  c4_snapshot_update_sequence "A" 7 true false [] snapMsgPlain (by decide)

/-- Claim C7: an inbound payload that fails to parse (`none`) is
discarded by both the WebSocket message handler and the bus
subscription handler: the store is unchanged, no effect is produced,
and a run that starts with the bad payload continues exactly as the run
without it — the connection and the subscription keep processing. -/
theorem c7_malformed_discarded (nid : String) (conn : Nat)
    (p l : Bool) (store : Store)
    (restW : List (Option Msg × Bool × Bool)) (restB : List (Option Msg)) :
    wsHandle nid conn p l store none = (store, []) ∧
    busHandle nid store none = (store, []) ∧
    wsRun nid conn store ((none, p, l) :: restW) =
      wsRun nid conn store restW ∧
    busRun nid store (none :: restB) = busRun nid store restB := by
  refine ⟨rfl, rfl, ?_, ?_⟩
  · simp [wsRun, wsHandle]
  · simp [busRun, busHandle]

/-- Claim C8: the envelope broadcast locally and published to the bus
for an accepted client `snapshot` message is the client's message with
the origin-tag field set to this instance's identity and every other
field unchanged; a client-supplied origin tag is overridden. -/
theorem c8_origin_tag_exact (nid : String) (conn : Nat)
    (pubOk logOk : Bool) (store : Store) (m : Msg)
    (htype : m.type = some (JVal.str "snapshot")) :
    ∃ ext : Msg,
      (wsHandle nid conn pubOk logOk store (some m)).2 =
        [Effect.broadcastMsg ext (some conn), Effect.publishStart ext,
         Effect.publishEnd pubOk,
         Effect.appendStart (jsOrDefault m.boardId) m.snapshot,
         Effect.appendEnd logOk] ∧
      ext.type = m.type ∧ ext.boardId = m.boardId ∧
      ext.snapshot = m.snapshot ∧ ext.nodeId = some (JVal.str nid) := by
  refine ⟨{ m with nodeId := some (JVal.str nid) }, ?_, rfl, rfl, rfl, rfl⟩
  have hreq : ¬ m.type = some (JVal.str "request_snapshot") := by
    rw [htype]; decide
  simp [wsHandle, hreq, htype]

/-- Closed witness for C8: a client-supplied origin tag `"B"` is
overridden to `"A"`. -/
theorem c8_origin_tag_exact_witness :
    ∃ ext : Msg,
      (wsHandle "A" 0 true true [] (some snapMsgFromB)).2 =
        [Effect.broadcastMsg ext (some 0), Effect.publishStart ext,
         Effect.publishEnd true,
         Effect.appendStart (jsOrDefault snapMsgFromB.boardId)
           snapMsgFromB.snapshot,
         Effect.appendEnd true] ∧
      ext.type = snapMsgFromB.type ∧ ext.boardId = snapMsgFromB.boardId ∧
      ext.snapshot = snapMsgFromB.snapshot ∧
      ext.nodeId = some (JVal.str "A") :=
  c8_origin_tag_exact "A" 0 true true [] snapMsgFromB (by decide)

/-- Claim C2: over any sequence of store-affecting entry points —
client snapshot frames, bus-delivered snapshots, debug REST writes —
a read of key `k` after the sequence returns exactly (deep equality is
structural equality of `JVal`) the value of the most recent operation
that wrote `k`: last writer wins, no version check, no merge. -/
theorem c2_last_writer_wins (nid : String) (s : Store) (ops : List PutOp)
    (k : JVal) (v : JSVal) (h : lastWrite nid k ops = some v) :
    mapGet (ops.foldl (applyOp nid) s) k = v := by
  induction ops generalizing s with
  | nil => cases h
  | cons op rest ih =>
    rw [List.foldl_cons]
    simp only [lastWrite] at h
    cases hlw : lastWrite nid k rest with
    | some w =>
      rw [hlw] at h
      have hv : w = v := by cases h; rfl
      exact ih (applyOp nid s op) (by rw [hlw, hv])
    | none =>
      rw [hlw] at h
      cases hw : opWrite nid op with
      | none =>
        rw [hw] at h
        have hx : (none : Option JSVal) = some v := h
        cases hx
      | some kv =>
        rw [hw] at h
        have hop : (if kv.1 = k then some kv.2 else none) = some v := h
        by_cases hk : kv.1 = k
        · rw [if_pos hk] at hop
          have hv : kv.2 = v := by cases hop; rfl
          rw [applyOp_opWrite, hw,
            mapGet_foldl_of_no_write nid k rest _ hlw]
          show mapGet (mapSet s kv.1 kv.2) k = v
          rw [hk, mapGet_set_self]
          exact hv
        · rw [if_neg hk] at hop
          cases hop

/-- Closed witness for C2: a REST write then a client snapshot on the
same board; the read returns the second value. -/
theorem c2_last_writer_wins_witness :
    mapGet (([PutOp.post "b" (JVal.num 9),
        PutOp.client 0 true true (some snapMsgPlain)]).foldl
          (applyOp "A") []) (JVal.str "b") =
      some (JVal.obj (.cons "v" (JVal.num 1) .nil)) :=
  c2_last_writer_wins "A" []
    [PutOp.post "b" (JVal.num 9), PutOp.client 0 true true (some snapMsgPlain)]
    (JVal.str "b") (some (JVal.obj (.cons "v" (JVal.num 1) .nil)))
    (by decide)

/-- Claim C5 counterexample: two open connections; the send to
connection `0` raises.  Connection `1` is eligible and its own send
would succeed, yet the broadcast delivers to nobody — the `for` loop
has no `try`/`catch`, so the error aborts the iteration (error flag
`true`). -/
theorem c5_counterexample :
    eligibleConn none connOne = true ∧
    sendOkExceptZero connOne.id = true ∧
    broadcastRun sendOkExceptZero none [connZero, connOne] =
      ([], true) := by decide

/-- Claim C5 as amended: the broadcast delivers to the eligible
connections in iteration order up to, and excluding, the first whose
send raises; the raised error escapes the loop (flag `true`) exactly
when some eligible connection's send raises, and the connections after
that point do not receive the message. -/
theorem c5_broadcast_stops_at_first_raise (sendOk : Nat → Bool)
    (exc : Option Nat) (conns : List Conn) :
    (broadcastRun sendOk exc conns).1 =
      ((conns.filter (eligibleConn exc)).map Conn.id).takeWhile sendOk ∧
    (broadcastRun sendOk exc conns).2 =
      !((conns.filter (eligibleConn exc)).map Conn.id).all sendOk := by
  rw [broadcastRun_delivery]
  exact ⟨rfl, rfl⟩

/-- Claim C6 counterexample: the store holds JSON `null` as the
snapshot of board `"default"`, yet a `request_snapshot` for it sends
nothing — the reply is guarded by JavaScript truthiness
(`if (snapshot)`), not by key presence. -/
theorem c6_counterexample :
    mapGet storeNullDefault (JVal.str "default") = some JVal.null ∧
    wsHandle "A" 0 true true storeNullDefault (some reqMsgNoBid) =
      (storeNullDefault, []) := by decide

/-- Claim C6 as amended: on `request_snapshot`, the store is never
changed; a `snapshot`-typed envelope carrying the stored value, with no
origin tag, is sent to the requesting connection only — and only when
the stored value is truthy; when the key is absent or the stored value
is falsy (`null`, `false`, `0`, `""`, `undefined`) nothing is sent. -/
theorem c6_request_reply_only_if_truthy (nid : String) (conn : Nat)
    (p l : Bool) (store : Store) (m : Msg)
    (htype : m.type = some (JVal.str "request_snapshot")) :
    wsHandle nid conn p l store (some m) =
      (store,
       if jsTruthy (mapGet store (jsOrDefault m.boardId)) then
         [Effect.sendTo conn (replyEnvelope store (jsOrDefault m.boardId))]
       else []) := by
  by_cases hc : jsTruthy (mapGet store (jsOrDefault m.boardId))
  · simp [wsHandle, htype, hc, replyEnvelope]
  · simp [wsHandle, htype, hc]

/-- Closed witness for C6 (amended): a truthy stored snapshot is
returned to the requester alone. -/
theorem c6_request_reply_only_if_truthy_witness :
    wsHandle "A" 0 true true storeSevenDefault (some reqMsgNoBid) =
      (storeSevenDefault,
       if jsTruthy (mapGet storeSevenDefault
           (jsOrDefault reqMsgNoBid.boardId)) then
         [Effect.sendTo 0 (replyEnvelope storeSevenDefault
           (jsOrDefault reqMsgNoBid.boardId))]
       else []) :=
  c6_request_reply_only_if_truthy "A" 0 true true storeSevenDefault
    reqMsgNoBid (by decide)

/-- Claim C9 counterexample: on a concrete accepted snapshot, the
handler's effect trace settles the awaited bus publish strictly before
it initiates the durable-log append — the two are serialized
(`await redisPub.publish` precedes `pool.query`), contradicting the
claim that they are not serialized with each other. -/
theorem c9_counterexample :
    ((wsHandle "A" 0 true true [] (some snapMsgPlain)).2.findIdx
        Effect.isPublishEnd <
      (wsHandle "A" 0 true true [] (some snapMsgPlain)).2.findIdx
        Effect.isAppendStart) ∧
    (wsHandle "A" 0 true true [] (some snapMsgPlain)).2.any
        Effect.isPublishEnd = true ∧
    (wsHandle "A" 0 true true [] (some snapMsgPlain)).2.any
        Effect.isAppendStart = true := by decide

/-- Claim C9 as amended: for every accepted client snapshot, the
durable-log append is initiated only after the local broadcast has been
made and the bus publish has settled — the publish and the append are
serialized with each other, in that order, and the append is never on
the critical path for delivering the update to peers. -/
theorem c9_append_after_publish_settles (nid : String) (conn : Nat)
    (pubOk logOk : Bool) (store : Store) (m : Msg)
    (htype : m.type = some (JVal.str "snapshot")) :
    ((wsHandle nid conn pubOk logOk store (some m)).2.findIdx
        Effect.isBroadcast <
      (wsHandle nid conn pubOk logOk store (some m)).2.findIdx
        Effect.isPublishStart) ∧
    ((wsHandle nid conn pubOk logOk store (some m)).2.findIdx
        Effect.isPublishEnd <
      (wsHandle nid conn pubOk logOk store (some m)).2.findIdx
        Effect.isAppendStart) ∧
    (wsHandle nid conn pubOk logOk store (some m)).2.any
        Effect.isAppendStart = true := by
  have hreq : ¬ m.type = some (JVal.str "request_snapshot") := by
    rw [htype]; decide
  simp [wsHandle, hreq, htype, List.findIdx_cons, Effect.isBroadcast,
    Effect.isPublishStart, Effect.isPublishEnd, Effect.isAppendStart]

/-- Closed witness for C9 (amended). -/
theorem c9_append_after_publish_settles_witness :
    (wsHandle "A" 0 true true [] (some snapMsgPlain)).2.any
        Effect.isAppendStart = true :=
  (c9_append_after_publish_settles "A" 0 true true [] snapMsgPlain
    (by decide)).2.2

/-- Claim C10: a falsy `boardId` (absent, `null`, `""`, `0`, `false`)
is not rejected: the defaulting expression yields the key `"default"`,
a `request_snapshot` reads board `"default"`, a client `snapshot`
writes board `"default"`, and a bus-received foreign `snapshot` writes
board `"default"`. -/
theorem c10_falsy_board_id_defaults (nid : String) (conn : Nat)
    (p l : Bool) (store : Store) (m : Msg)
    (hb : jsTruthy m.boardId = false) :
    jsOrDefault m.boardId = JVal.str "default" ∧
    (m.type = some (JVal.str "request_snapshot") →
      wsHandle nid conn p l store (some m) =
        (store,
         if jsTruthy (mapGet store (JVal.str "default")) then
           [Effect.sendTo conn (replyEnvelope store (JVal.str "default"))]
         else [])) ∧
    (m.type = some (JVal.str "snapshot") →
      (wsHandle nid conn p l store (some m)).1 =
        mapSet store (JVal.str "default") m.snapshot) ∧
    (m.type = some (JVal.str "snapshot") →
      m.nodeId ≠ some (JVal.str nid) →
      (busHandle nid store (some m)).1 =
        mapSet store (JVal.str "default") m.snapshot) := by
  have hdef : jsOrDefault m.boardId = JVal.str "default" := by
    cases hbv : m.boardId with
    | none => rfl
    | some bv =>
      rw [hbv] at hb
      simp only [jsTruthy] at hb
      simp [jsOrDefault, hb]
  refine ⟨hdef, ?_, ?_, ?_⟩
  · intro ht
    by_cases hc : jsTruthy (mapGet store (JVal.str "default"))
    · simp [wsHandle, ht, hdef, hc, replyEnvelope]
    · simp [wsHandle, ht, hdef, hc]
  · intro ht
    have hreq : ¬ m.type = some (JVal.str "request_snapshot") := by
      rw [ht]; decide
    simp [wsHandle, ht, hreq, hdef]
  · intro ht hn
    have hcond : ¬ (jsTruthy m.nodeId = true ∧
        m.nodeId = some (JVal.str nid)) := fun hc => hn hc.2
    simp [busHandle, hcond, ht, hdef]

/-- Closed witness for C10: a client snapshot with `boardId: null` is
stored under the key `"default"`. -/
theorem c10_falsy_board_id_defaults_witness :
    (wsHandle "A" 0 true true [] (some snapMsgNullBid)).1 =
      mapSet [] (JVal.str "default") snapMsgNullBid.snapshot :=
  (c10_falsy_board_id_defaults "A" 0 true true [] snapMsgNullBid
    (by decide)).2.2.1 (by decide)

end Whiteboard
